import Mathlib

/-!
Verification development for the seller-financing NPV calculator and its
conversational front end.

The definitions below are a shallow embedding of the TypeScript sources:

* the NPV solver (`calculateNPV` and its helpers) from the calculator module;
* the free-text slot parsers, the alternative-property matcher
  (`findAlternativeApartments`) and the turn function (`generateBotResponse`)
  from the chatbot module.

Modelling conventions:

* JavaScript `number` is modelled by `ℚ`.  The source performs only field
  arithmetic on its inputs; `ℚ` reproduces it exactly.  The one divergence is
  division by zero, which is `Infinity`/`NaN` in the source and `0` in `ℚ`;
  no theorem in this file depends on the value of a quotient with zero
  denominator.
* Calendar months are modelled as pairs `(year, month) : ℤ × ℤ`.  The source
  stores them as `"YYYY-MM"` strings built from a normalized JS `Date` and
  parses them back with `split('-')`; that round trip is exactly the pair.
* `annualToMonthlyRate` computes `(1+a)^(1/12) - 1`, an irrational function
  that has no exact `ℚ` counterpart.  The conversation engine therefore takes
  the conversion function as an explicit parameter `a2m`; every theorem about
  the engine holds for an arbitrary such function, and none of the claims
  exercises the annual-rate path.
* The engine's reply strings are presentation only (out of scope per the
  specification); a turn result is modelled as the optional produced
  `NPVResult` plus the optional updated `ConversationState` (the source
  returns `{ message, npvResult?, newState? }`, the caller keeping the old
  state when `newState` is absent).
-/

/-- Signed month offset between two calendar months, exactly
`(endYear - startYear) * 12 + (endMonth - startMonth)` from the source. -/
def monthsBetween (startYear startMonth endYear endMonth : ℤ) : ℤ :=
  (endYear - startYear) * 12 + (endMonth - startMonth)

/-- `amount / (1+r)^monthsAhead`; valid for any integer offset, negative
offsets compounding forward, exactly as `Math.pow` does in the source. -/
def presentValue (amount : ℚ) (monthsAhead : ℤ) (r : ℚ) : ℚ :=
  amount / (1 + r) ^ monthsAhead

/-- `Sum_{k=startMonth..startMonth+n-1} 1/(1+r)^k`, skipping the term with
`k = skipIndex` when given.  The source's `continue` is modelled by adding
`0` for the skipped index. -/
def geometricSumDiscount (n : ℕ) (r : ℚ) (startMonth : ℤ)
    (skipIndex : Option ℤ) : ℚ :=
  ((List.range n).map (fun (i : ℕ) =>
    if skipIndex = some (startMonth + (i : ℤ)) then 0
    else 1 / (1 + r) ^ (startMonth + (i : ℤ)))).sum

/-- Adding `k` months to the calendar month `(y, m)`, with the year/month
normalization that `Date.setMonth` performs (month index carried into the
year with floor division). -/
def addMonths (y m k : ℤ) : ℤ × ℤ :=
  (y + (m - 1 + k) / 12, (m - 1 + k) % 12 + 1)

inductive EntryType
  | installment
  | down_payment
deriving DecidableEq

structure ScheduleEntry where
  date : ℤ × ℤ
  amount : ℚ
  etype : EntryType
deriving DecidableEq

structure NPVInputs where
  targetPv : Option ℚ
  targetNominal : Option ℚ
  monthlyRate : ℚ
  downAmount : ℚ
  downYear : ℤ
  downMonth : ℤ
  nInstallments : ℕ
  startYear : ℤ
  startMonth : ℤ
deriving DecidableEq

structure ModelResult where
  monthlyInstallment : ℚ
  nominalTotal : ℚ
  presentValue : ℚ
  schedule : List ScheduleEntry
deriving DecidableEq

structure NPVResult where
  modelA : ModelResult
  modelB : ModelResult
  downPaymentPV : ℚ
  downPaymentDate : ℤ × ℤ
deriving DecidableEq

/-- Model A (concurrent) schedule: one installment of `T` at each month
offset `1..n` from the start date. -/
def scheduleConcurrent (inp : NPVInputs) (T : ℚ) : List ScheduleEntry :=
  (List.range inp.nInstallments).map fun (i : ℕ) =>
    { date := addMonths inp.startYear inp.startMonth ((i : ℤ) + 1)
      amount := T
      etype := .installment }

/-- The month offsets Model B pays at: the source loop walks `k = 1, 2, ...`,
skipping `k = t` once, until `n` installments are placed.  Since the loop
visits at most the offsets `1..n+1` and skips at most one of them, it emits
exactly the first `n` offsets of `1..n+1` different from `t`. -/
def skipOffsets (n : ℕ) (t : ℤ) : List ℤ :=
  (((List.range (n + 1)).map fun (i : ℕ) => (i : ℤ) + 1).filter (fun k => k ≠ t)).take n

/-- The offsets `1..n` that Model A pays at. -/
def conOffsets (n : ℕ) : List ℤ :=
  (List.range n).map fun (i : ℕ) => (i : ℤ) + 1

/-- Model B (skip) schedule: installments of `T` at `skipOffsets`. -/
def scheduleSkip (inp : NPVInputs) (T : ℚ) : List ScheduleEntry :=
  (skipOffsets inp.nInstallments
      (monthsBetween inp.startYear inp.startMonth inp.downYear inp.downMonth)).map
    fun k =>
      { date := addMonths inp.startYear inp.startMonth k
        amount := T
        etype := .installment }

/-- Present value of a schedule: each entry's date is turned back into a
month offset from the start date and discounted. -/
def pvOfSchedule (schedule : List ScheduleEntry) (inp : NPVInputs) : ℚ :=
  (schedule.map fun e =>
    presentValue e.amount
      (monthsBetween inp.startYear inp.startMonth e.date.1 e.date.2)
      inp.monthlyRate).sum

inductive CalcError
  | invalidInput
deriving DecidableEq

/-- The NPV solver.  Mode 1 (`targetPv` supplied) solves the uniform
installment per model; Mode 2 (`targetNominal` supplied) derives the common
installment and reports each model's present value; otherwise the source
throws, modelled as `Except.error .invalidInput`.  The source performs no
other validity check. -/
def calculateNPV (inputs : NPVInputs) : Except CalcError NPVResult :=
  let t := monthsBetween inputs.startYear inputs.startMonth
    inputs.downYear inputs.downMonth
  let pvDown := presentValue inputs.downAmount t inputs.monthlyRate
  let downDate : ℤ × ℤ := (inputs.downYear, inputs.downMonth)
  match inputs.targetPv with
  | some targetPv =>
    let remainingPv := targetPv - pvDown
    let sCon := geometricSumDiscount inputs.nInstallments inputs.monthlyRate 1 none
    let tCon := remainingPv / sCon
    let schedCon := scheduleConcurrent inputs tCon
    let pvCon := pvDown + pvOfSchedule schedCon inputs
    let nominalCon := inputs.downAmount + tCon * (inputs.nInstallments : ℚ)
    let skipIdx : Option ℤ :=
      if 1 ≤ t ∧ t ≤ (inputs.nInstallments : ℤ) + 1 then some t else none
    let sSkip := geometricSumDiscount (inputs.nInstallments + 1) inputs.monthlyRate 1 skipIdx
    let tSkip := remainingPv / sSkip
    let schedSkip := scheduleSkip inputs tSkip
    let pvSkip := pvDown + pvOfSchedule schedSkip inputs
    let nominalSkip := inputs.downAmount + tSkip * (inputs.nInstallments : ℚ)
    .ok { modelA := ⟨tCon, nominalCon, pvCon, schedCon⟩
          modelB := ⟨tSkip, nominalSkip, pvSkip, schedSkip⟩
          downPaymentPV := pvDown
          downPaymentDate := downDate }
  | none =>
    match inputs.targetNominal with
    | some targetNominal =>
      let tCommon := (targetNominal - inputs.downAmount) / (inputs.nInstallments : ℚ)
      let schedCon := scheduleConcurrent inputs tCommon
      let pvCon := pvDown + pvOfSchedule schedCon inputs
      let schedSkip := scheduleSkip inputs tCommon
      let pvSkip := pvDown + pvOfSchedule schedSkip inputs
      .ok { modelA := ⟨tCommon, targetNominal, pvCon, schedCon⟩
            modelB := ⟨tCommon, targetNominal, pvSkip, schedSkip⟩
            downPaymentPV := pvDown
            downPaymentDate := downDate }
    | none => .error .invalidInput

/-!
### String utilities

The chatbot parses free text with JavaScript regular expressions and string
methods.  The helpers below reimplement exactly the operations used:
substring containment (`String.prototype.includes`), leftmost regex matching
for the handful of fixed patterns in the source, `parseFloat`, and
`toLowerCase` (ASCII case mapping; the source's Unicode case mapping differs
only on uppercase non-ASCII letters, which no keyword comparison and
no result in this file exercises).
-/

/-- ASCII `toLowerCase` of a string. -/
def lowerStr (s : String) : String :=
  String.mk (s.toList.map Char.toLower)

/-- ASCII `toUpperCase` of a string. -/
def upperStr (s : String) : String :=
  String.mk (s.toList.map Char.toUpper)

/-- `String.prototype.trim`: strip leading and trailing whitespace. -/
def trimChars (l : List Char) : List Char :=
  ((l.dropWhile Char.isWhitespace).reverse.dropWhile Char.isWhitespace).reverse

def trimStr (s : String) : String :=
  String.mk (trimChars s.toList)

/-- `s.includes(pat)`: `pat` occurs as a contiguous substring of `s`. -/
def containsStr (s pat : String) : Bool :=
  (List.range (s.toList.length + 1)).any fun i =>
    pat.toList.isPrefixOf (s.toList.drop i)

/-- Numeric value of a digit character. -/
def digitVal (c : Char) : ℕ := c.toNat - '0'.toNat

/-- Value of a list of decimal digit characters. -/
def natOfDigits (l : List Char) : ℕ :=
  l.foldl (fun a c => a * 10 + digitVal c) 0

def isLetterChar (c : Char) : Bool :=
  ('A' ≤ c && c ≤ 'Z') || ('a' ≤ c && c ≤ 'z')

def isAlnumChar (c : Char) : Bool :=
  isLetterChar c || c.isDigit

/-- Characters matched by the `[\d.,]` class of the rate regexes. -/
def isNumTokenChar (c : Char) : Bool :=
  c.isDigit || c = '.' || c = ','

/-- Leftmost-match scan: try the pattern matcher `f` at every start
position, returning the first success (the semantics of an unanchored
JavaScript regex search). -/
def firstSome {α : Type} (f : List Char → Option α) : List Char → Option α
  | [] => f []
  | c :: rest =>
    match f (c :: rest) with
    | some r => some r
    | none => firstSome f rest

/-- Match `[A-Z]+-[A-Z0-9]+-\d+` (case-insensitive) at the head of the
list, returning the matched characters.  Maximal munch coincides with
regex backtracking here because each character class excludes `-`. -/
def matchEvIdAt (l : List Char) : Option (List Char) :=
  let letters := l.takeWhile isLetterChar
  match letters, l.dropWhile isLetterChar with
  | [], _ => none
  | _, '-' :: rest1 =>
    let mid := rest1.takeWhile isAlnumChar
    match mid, rest1.dropWhile isAlnumChar with
    | [], _ => none
    | _, '-' :: rest2 =>
      let ds := rest2.takeWhile Char.isDigit
      if ds.isEmpty then none
      else some (letters ++ '-' :: mid ++ '-' :: ds)
    | _, _ => none
  | _, _ => none

/-- `input.match(/([A-Z]+-[A-Z0-9]+-\d+)/i)`, uppercased — the property-id
parser. -/
def parseApartmentId (s : String) : Option String :=
  (firstSome matchEvIdAt s.toList).map fun l => upperStr (String.mk l)

/-- Anchored test `/^[A-Z]+-[A-Z0-9]+-\d+$/i` used by the amount parser to
refuse property ids. -/
def fullEvId (l : List Char) : Bool :=
  match matchEvIdAt l with
  | some m => m.length = l.length
  | none => false

/-- The down-payment amount parser: refuse full property-id strings, then
keep only the digits of the trimmed input and read them as an integer,
requiring a positive value. -/
def parseAmount (s : String) : Option ℚ :=
  let t := trimChars s.toList
  if fullEvId t then none
  else
    let ds := t.filter Char.isDigit
    if ds.isEmpty then none
    else
      let a := natOfDigits ds
      if 0 < a then some (a : ℚ) else none

/-- First position holding four consecutive digits, read as a number — the
`/(\d{4})/` search of the year parser. -/
def firstFourDigits : List Char → Option ℕ
  | a :: b :: c :: d :: rest =>
    if a.isDigit && b.isDigit && c.isDigit && d.isDigit then
      some (natOfDigits [a, b, c, d])
    else firstFourDigits (b :: c :: d :: rest)
  | _ => none

/-- The year parser: first 4-digit group of the trimmed input, accepted when
strictly between 2000 and 2100. -/
def parseYear (s : String) : Option ℤ :=
  match firstFourDigits (trimChars s.toList) with
  | some y => if 2000 < y ∧ y < 2100 then some (y : ℤ) else none
  | none => none

/-- Leftmost `/(\d{1,2})/` match: at the first digit, greedily take a second
digit when present. -/
def firstUpTo2Digits : List Char → Option ℕ
  | [] => none
  | c :: rest =>
    if c.isDigit then
      match rest with
      | d :: _ => if d.isDigit then some (natOfDigits [c, d]) else some (digitVal c)
      | [] => some (digitVal c)
    else firstUpTo2Digits rest

/-- The Turkish month names, in the source's object-literal order. -/
def monthNames : List (String × ℕ) :=
  [("ocak", 1), ("şubat", 2), ("mart", 3), ("nisan", 4), ("mayıs", 5),
   ("haziran", 6), ("temmuz", 7), ("ağustos", 8), ("eylül", 9), ("ekim", 10),
   ("kasım", 11), ("aralık", 12)]

/-- The month parser: a 1-2 digit number in `1..12`, else the first Turkish
month name contained in the lowercased trimmed input. -/
def parseMonth (s : String) : Option ℤ :=
  let t := lowerStr (trimStr s)
  match firstUpTo2Digits t.toList with
  | some m =>
    if 1 ≤ m ∧ m ≤ 12 then some (m : ℤ)
    else
      ((monthNames.find? fun p => containsStr t p.1).map fun p => (p.2 : ℤ))
  | none =>
    ((monthNames.find? fun p => containsStr t p.1).map fun p => (p.2 : ℤ))

/-- Leftmost full run of digits — `/(\d+)/`. -/
def firstDigitRun : List Char → Option (List Char)
  | [] => none
  | c :: rest =>
    if c.isDigit then some (c :: rest.takeWhile Char.isDigit)
    else firstDigitRun rest

/-- The installment-count parser `/(\d+)\s*(ay|taksit)?/`: the optional
suffix does not affect the captured number. -/
def parseInstallments (s : String) : Option ℕ :=
  match firstDigitRun s.toList with
  | some ds =>
    let n := natOfDigits ds
    if 0 < n then some n else none
  | none => none

/-- `parseFloat` on a token that starts with a digit or dot: integer part,
then optionally one dot and a fractional part, ignoring everything after. -/
def parseFloatQ (l : List Char) : ℚ :=
  let intPart := l.takeWhile Char.isDigit
  let frac :=
    match l.dropWhile Char.isDigit with
    | '.' :: r => r.takeWhile Char.isDigit
    | _ => []
  (natOfDigits intPart : ℚ) + (natOfDigits frac : ℚ) / (10 : ℚ) ^ frac.length

/-- `String.prototype.replace(',', '.')`: only the first comma is replaced. -/
def replaceFirstComma : List Char → List Char
  | [] => []
  | c :: r => if c = ',' then '.' :: r else c :: replaceFirstComma r

/-- Leftmost `/(\d+[\d.,]*)/` match of a string, parsed after replacing the
first comma by a dot — the bare-number reading shared by the rate paths. -/
def firstNumToken (s : String) : Option (List Char) :=
  firstSome
    (fun l =>
      match l with
      | [] => none
      | c :: rest =>
        if c.isDigit then some (c :: rest.takeWhile isNumTokenChar) else none)
    s.toList

def firstNumQ (s : String) : Option ℚ :=
  (firstNumToken s).map fun tok => parseFloatQ (replaceFirstComma tok)

/-- Match `/%?\s*(\d+[\d.,]*)\s*%/` at the head of the list, returning the
digit token (which must be followed, after optional whitespace, by `%`). -/
def matchPercentAt (l : List Char) : Option (List Char) :=
  let l1 := match l with
    | '%' :: r => r
    | _ => l
  match l1.dropWhile Char.isWhitespace with
  | c :: rest =>
    if c.isDigit then
      let tok := c :: rest.takeWhile isNumTokenChar
      match (rest.dropWhile isNumTokenChar).dropWhile Char.isWhitespace with
      | '%' :: _ => some tok
      | _ => none
    else none
  | [] => none

/-- The interest-rate parser.  Detects an annual keyword anywhere in the
lowercased input; then tries the percent-sign form and falls back to a bare
number.  The annual percent path strips `%` and commas from the matched
group (the source's `replace(/[%,]/g,'')`), while the other paths replace
the first comma by a dot.  A value with a percent sign in the monthly form
is divided by 100; a bare number is returned as typed.  Returns the rate
with an `isAnnual` flag, or `none` for nonpositive or missing numbers. -/
def parseInterestRate (s : String) : Option (ℚ × Bool) :=
  let lower := lowerStr s
  let isAnnual := containsStr lower "yıllık" || containsStr lower "yillik" ||
    containsStr lower "annual" || containsStr lower "yıl" || containsStr lower "yil"
  if isAnnual then
    match firstSome matchPercentAt s.toList with
    | some tok =>
      let rate := parseFloatQ (tok.filter fun c => c ≠ ',')
      if 0 < rate then some (rate, true) else none
    | none =>
      match firstNumToken s with
      | some tok =>
        let rate := parseFloatQ (replaceFirstComma tok)
        if 0 < rate then some (rate, true) else none
      | none => none
  else
    match firstSome matchPercentAt s.toList with
    | some tok =>
      let rate := parseFloatQ (replaceFirstComma tok) / 100
      if 0 < rate then some (rate, false) else none
    | none =>
      match firstNumToken s with
      | some tok =>
        let rate := parseFloatQ (replaceFirstComma tok)
        if 0 < rate then some (rate, false) else none
      | none => none

/-- The delivery-duration parser `/(\d+)\s*ay/i`: first digit run followed,
after optional whitespace, by the letters `ay` (case-insensitive);
defaulting to 0 when absent. -/
def matchNumAy : List Char → Option ℕ
  | [] => none
  | c :: rest =>
    if c.isDigit then
      let ds := c :: rest.takeWhile Char.isDigit
      match (rest.dropWhile Char.isDigit).dropWhile Char.isWhitespace with
      | a :: y :: _ =>
        if a.toLower = 'a' && y.toLower = 'y' then some (natOfDigits ds)
        else matchNumAy rest
      | _ => matchNumAy rest
    else matchNumAy rest

def parseDeliveryTime (teslimSuresi : String) : ℕ :=
  match matchNumAy teslimSuresi.toList with
  | some n => n
  | none => 0

/-- Anchored `/^(\d+)\.?$/` used for picking an alternative by list
position. -/
def listNumberMatch (s : String) : Option ℕ :=
  let l := s.toList
  let ds := l.takeWhile Char.isDigit
  if ds.isEmpty then none
  else
    match l.dropWhile Char.isDigit with
    | [] => some (natOfDigits ds)
    | ['.'] => some (natOfDigits ds)
    | _ => none

/-!
### Conversation engine data model
-/

/-- A catalog property.  The source record also carries presentation-only
fields (project/city/district/neighbourhood/block/floor/room-count/area and
the delivery end-date label) that no computation reads; the three fields
kept here are the ones the engine, the matcher and the solver use. -/
structure Apartment where
  ev_id : String
  teslim_suresi : String
  bugunku_pesin_fiyat : ℚ
deriving DecidableEq

inductive ConversationStep
  | waiting_for_apartment
  | waiting_for_interest_rate
  | waiting_for_down_payment
  | waiting_for_down_payment_year
  | waiting_for_down_payment_month
  | waiting_for_installments
  | completed
  | waiting_for_lower_installment
  | showing_alternatives
deriving DecidableEq

structure ConversationState where
  step : Option ConversationStep := none
  apartmentId : Option String := none
  downAmount : Option ℚ := none
  monthlyRate : Option ℚ := none
  nInstallments : Option ℕ := none
  startYear : Option ℤ := none
  startMonth : Option ℤ := none
  downYear : Option ℤ := none
  downMonth : Option ℤ := none
  isAnnualRateSelected : Option Bool := none
  desiredInstallment : Option ℚ := none
  calculatedPv : Option ℚ := none
  lastNpvResult : Option NPVResult := none
  alternativeApartments : Option (List Apartment) := none
  suggestedDownAmount : Option ℚ := none
deriving DecidableEq

/-- Result of one conversation turn: the optionally produced `NPVResult` and
the optionally updated context (absent = context unchanged); the reply text
is presentation only and not modelled. -/
structure BotResponse where
  npvResult : Option NPVResult := none
  newState : Option ConversationState := none
deriving DecidableEq

/-- JavaScript truthiness of an optional number (`undefined` and `0` are
falsy). -/
def optTruthyQ : Option ℚ → Bool
  | none => false
  | some x => x != 0

def optTruthyZ : Option ℤ → Bool
  | none => false
  | some x => x != 0

def optTruthyN : Option ℕ → Bool
  | none => false
  | some x => x != 0

/-- JavaScript `o || d` on an optional number. -/
def jsOrQ (o : Option ℚ) (d : ℚ) : ℚ :=
  match o with
  | some x => if x = 0 then d else x
  | none => d

def jsOrZ (o : Option ℤ) (d : ℤ) : ℤ :=
  match o with
  | some x => if x = 0 then d else x
  | none => d

def jsOrN (o : Option ℕ) (d : ℕ) : ℕ :=
  match o with
  | some x => if x = 0 then d else x
  | none => d

/-- The rate normalization used at every solver call site:
`v > 1 ? v / 100 : v` (a stored percent value is turned into a decimal
fraction; a value ≤ 1 is taken to be a decimal fraction already). -/
def normalizeRate (v : ℚ) : ℚ :=
  if 1 < v then v / 100 else v

/-- The source's `(state.monthlyRate || 2) > 1 ? (state.monthlyRate || 2) / 100
: (state.monthlyRate || 0.02)` used throughout the negotiation branches. -/
def negotiationRate (state : ConversationState) : ℚ :=
  if 1 < jsOrQ state.monthlyRate 2 then jsOrQ state.monthlyRate 2 / 100
  else jsOrQ state.monthlyRate (2 / 100)

/-- Catalog lookup by the optionally selected property id (a comparison with
an absent id never matches, as in the source). -/
def findApt (apartments : List Apartment) (id? : Option String) : Option Apartment :=
  id?.bind fun id => apartments.find? fun apt => apt.ev_id == id

/-!
### Alternative property matcher
-/

structure AltItem where
  apartment : Apartment
  calculatedInstallment : ℚ
  deliveryMonths : ℕ
  pv : ℚ
deriving DecidableEq

/-- The Model A installment recomputed for a candidate property in
target-present-value mode with that property's price and the given
down payment, term and (normalized) rate — exactly the value the matcher
computes per candidate.  The `.error` arm is unreachable because a target
present value is supplied. -/
def recomputedInstallment (downAmount : ℚ) (nInstallments : ℕ) (monthlyRate : ℚ)
    (downYear downMonth startYear startMonth : ℤ) (apt : Apartment) : ℚ :=
  let inp : NPVInputs :=
    { targetPv := some apt.bugunku_pesin_fiyat, targetNominal := none,
      monthlyRate := normalizeRate monthlyRate, downAmount := downAmount,
      downYear := downYear, downMonth := downMonth, nInstallments := nInstallments,
      startYear := startYear, startMonth := startMonth }
  match calculateNPV inp with
  | .ok res => res.modelA.monthlyInstallment
  | .error _ => 0

/-- The matcher's comparator: primary key distance to the desired
installment; when two distances differ by less than 1000, the longer
delivery duration ranks first. -/
def altCompare (desired : ℚ) (a b : AltItem) : ℚ :=
  if |a.calculatedInstallment - desired| - |b.calculatedInstallment - desired| < 1000 ∧
      |b.calculatedInstallment - desired| - |a.calculatedInstallment - desired| < 1000 then
    (b.deliveryMonths : ℚ) - (a.deliveryMonths : ℚ)
  else |a.calculatedInstallment - desired| - |b.calculatedInstallment - desired|

/-- Insert into a sorted list according to a boolean comparator. -/
def insertSorted {α : Type} (le : α → α → Bool) (a : α) : List α → List α
  | [] => [a]
  | b :: l => if le a b then a :: b :: l else b :: insertSorted le a l

/-- Comparator sort modelling `Array.prototype.sort`: the JS algorithm is
implementation defined, so any comparator-respecting permutation is a
faithful model; only the permutation property matters to the claims. -/
def sortByJs {α : Type} (le : α → α → Bool) : List α → List α
  | [] => []
  | a :: l => insertSorted le a (sortByJs le l)

/-- The alternative-property matcher.  Excludes the currently selected
property, recomputes each candidate's Model A installment in
target-present-value mode, keeps the strictly positive installments within
`±installmentTolerance` (the call sites pass the default 5000) of the
desired amount, sorts by `altCompare` and returns at most 5 properties. -/
def findAlternativeApartments (apartments : List Apartment)
    (desiredInstallment downAmount : ℚ) (nInstallments : ℕ) (monthlyRate : ℚ)
    (downYear downMonth startYear startMonth : ℤ) (currentApartmentId : String)
    (installmentTolerance : ℚ) : List Apartment :=
  match apartments.find? (fun apt => apt.ev_id == currentApartmentId) with
  | none => []
  | some _ =>
    let filtered := apartments.filter fun apt => apt.ev_id != currentApartmentId
    let candidates : List AltItem := filtered.filterMap fun apt =>
      let inp : NPVInputs :=
        { targetPv := some apt.bugunku_pesin_fiyat, targetNominal := none,
          monthlyRate := normalizeRate monthlyRate, downAmount := downAmount,
          downYear := downYear, downMonth := downMonth, nInstallments := nInstallments,
          startYear := startYear, startMonth := startMonth }
      match calculateNPV inp with
      | .ok res => some { apartment := apt
                          calculatedInstallment := res.modelA.monthlyInstallment
                          deliveryMonths := parseDeliveryTime apt.teslim_suresi
                          pv := apt.bugunku_pesin_fiyat }
      | .error _ => none
    let matching := candidates.filter fun item =>
      decide (desiredInstallment - installmentTolerance ≤ item.calculatedInstallment) &&
      decide (item.calculatedInstallment ≤ desiredInstallment + installmentTolerance) &&
      decide (0 < item.calculatedInstallment)
    let sorted := sortByJs (fun a b => decide (altCompare desiredInstallment a b ≤ 0)) matching
    (sorted.take 5).map fun item => item.apartment

/-!
### Conversation engine: keyword tests and per-step handlers

The source's `generateBotResponse` is a sequence of early-return blocks:
a greeting/initial block, a help block, then one block per conversation
step.  Each block is a definition below; where a source block only produces
a reply text without `newState` (pure re-prompt), the handler returns the
default `BotResponse` (no result, no state change).
-/

/-- `userMessage.toLowerCase().trim()`. -/
def lowerMsg (u : String) : String := trimStr (lowerStr u)

def greetingKeyword (lm : String) : Bool :=
  containsStr lm "merhaba" || containsStr lm "selam" ||
  containsStr lm "başla" || containsStr lm "yeni"

def helpKeyword (lm : String) : Bool :=
  containsStr lm "yardım" || containsStr lm "nasıl" || containsStr lm "help"

def annualKeyword (lm : String) : Bool :=
  containsStr lm "yıllık" || containsStr lm "yillik" || containsStr lm "annual" ||
  lm == "e" || lm == "evet" || lm == "y" || lm == "yes"

def monthlyKeyword (lm : String) : Bool :=
  containsStr lm "aylık" || containsStr lm "aylik" || containsStr lm "monthly" ||
  lm == "h" || lm == "hayır" || lm == "n" || lm == "no" || lm == ""

/-- The seven "installment too high" keywords checked in the `completed`
state. -/
def lowerInstallmentKeyword (lm : String) : Bool :=
  containsStr lm "daha düşük taksit" || containsStr lm "düşük taksit" ||
  containsStr lm "taksit fazla" || containsStr lm "taksit çok" ||
  containsStr lm "daha az taksit" || containsStr lm "düşük ödeme" ||
  containsStr lm "azaltmak"

/-- The bare-number guard of the rate step: accept unless the raw message
contains a dash and is a full property id. -/
def bareRateGuard (u : String) : Bool :=
  !(u.toList.contains '-') || !(fullEvId u.toList)

/-- JS `Date` comparison on first-of-month dates: lexicographic on
`(year, month)`. -/
def dateLt (a b : ℤ × ℤ) : Bool :=
  decide (a.1 < b.1) || (decide (a.1 = b.1) && decide (a.2 < b.2))

/-- The greeting / initial-message block: keeps the whole context (the
source spreads the old state) and only sets the step and the session start
date. -/
def greetingResponse (today : ℤ × ℤ) (state : ConversationState) : BotResponse :=
  { newState := some { state with step := some .waiting_for_apartment,
                                  startYear := some today.1,
                                  startMonth := some today.2 } }

/-- Property-selection step.  An id matching a catalog property is accepted;
all other inputs (unknown id, or any other parsed value) produce reply text
only. -/
def stepApartment (u : String) (state : ConversationState)
    (apartments : List Apartment) : BotResponse :=
  match parseApartmentId u with
  | some evId =>
    match apartments.find? (fun apt => apt.ev_id == evId) with
    | some _ => { newState := some { state with apartmentId := some evId,
                                                step := some .waiting_for_interest_rate } }
    | none => {}
  | none => {}

/-- Interest-rate step. -/
def stepRate (a2m : ℚ → ℚ) (u lm : String) (state : ConversationState) : BotResponse :=
  if (parseApartmentId u).isSome then {}
  else
    match state.isAnnualRateSelected with
    | none =>
      if annualKeyword lm then
        { newState := some { state with isAnnualRateSelected := some true } }
      else if monthlyKeyword lm then
        { newState := some { state with isAnnualRateSelected := some false } }
      else
        match parseInterestRate u with
        | some (rate, true) =>
          { newState := some { state with monthlyRate := some (a2m (rate / 100) * 100),
                                          isAnnualRateSelected := some true,
                                          step := some .waiting_for_down_payment } }
        | some (rate, false) =>
          { newState := some { state with monthlyRate := some rate,
                                          isAnnualRateSelected := some false,
                                          step := some .waiting_for_down_payment } }
        | none =>
          match firstNumQ u with
          | some rate =>
            if bareRateGuard u ∧ 0 < rate ∧ rate < 1000 then
              { newState := some { state with monthlyRate := some rate,
                                              isAnnualRateSelected := some false,
                                              step := some .waiting_for_down_payment } }
            else {}
          | none => {}
    | some sel =>
      match firstNumQ u with
      | some rate =>
        if bareRateGuard u ∧ 0 < rate ∧ rate < 1000 then
          if sel then
            { newState := some { state with monthlyRate := some (a2m (rate / 100) * 100),
                                            step := some .waiting_for_down_payment } }
          else
            { newState := some { state with monthlyRate := some rate,
                                            step := some .waiting_for_down_payment } }
        else {}
      | none => {}

/-- Down-payment-amount step: bounce back to the rate step when no rate is
stored; refuse property ids; reject amounts below 1000 and amounts above
the selected property's price; otherwise record and advance. -/
def stepDownPayment (u : String) (state : ConversationState)
    (apartments : List Apartment) : BotResponse :=
  if !(optTruthyQ state.monthlyRate) then
    { newState := some { state with step := some .waiting_for_interest_rate } }
  else if (parseApartmentId u).isSome then {}
  else
    match parseAmount u with
    | some amount =>
      if amount < 1000 then {}
      else
        let accept : BotResponse :=
          { newState := some { state with downAmount := some amount,
                                          step := some .waiting_for_down_payment_year } }
        match findApt apartments state.apartmentId with
        | some apt => if apt.bugunku_pesin_fiyat < amount then {} else accept
        | none => accept
    | none => {}

/-- Down-payment-year step: a parsed year advances; an empty (all
whitespace) message accepts the default (session start year, else the
current year); anything else re-prompts. -/
def stepYear (today : ℤ × ℤ) (u : String) (state : ConversationState) : BotResponse :=
  match parseYear u with
  | some y => { newState := some { state with downYear := some y,
                                              step := some .waiting_for_down_payment_month } }
  | none =>
    if trimStr u == "" then
      { newState := some { state with downYear := some (jsOrZ state.startYear today.1),
                                      step := some .waiting_for_down_payment_month } }
    else {}

/-- Down-payment-month step: a parsed month advances unless the resulting
down-payment date precedes the current month; there is no empty-input
default here. -/
def stepMonth (today : ℤ × ℤ) (u : String) (state : ConversationState) : BotResponse :=
  match parseMonth u with
  | some m =>
    if dateLt (jsOrZ state.downYear today.1, m) today then {}
    else { newState := some { state with downMonth := some m,
                                         step := some .waiting_for_installments } }
  | none => {}

/-- The solver invocation at the end of the installment-count step.  When
the catalog lookup or a required field fails, the source block falls
through and the turn ends in the final catch-all reply without `newState`;
that outcome is returned directly here. -/
def computeAtInstallments (today : ℤ × ℤ) (state : ConversationState)
    (apartments : List Apartment) (n : ℕ) : BotResponse :=
  let st1 := { state with nInstallments := some n, step := some ConversationStep.completed }
  match findApt apartments state.apartmentId with
  | none => {}
  | some apt =>
    if optTruthyQ state.monthlyRate && optTruthyQ state.downAmount &&
        optTruthyZ state.downYear && optTruthyZ state.downMonth then
      let inp : NPVInputs :=
        { targetPv := some apt.bugunku_pesin_fiyat, targetNominal := none,
          monthlyRate := normalizeRate (state.monthlyRate.getD 0),
          downAmount := state.downAmount.getD 0,
          downYear := state.downYear.getD 0, downMonth := state.downMonth.getD 0,
          nInstallments := n, startYear := jsOrZ state.startYear today.1,
          startMonth := jsOrZ state.startMonth today.2 }
      match calculateNPV inp with
      | .ok res =>
        if res.modelA.monthlyInstallment < 0 ∨ res.modelB.monthlyInstallment < 0 then {}
        else if res.modelA.nominalTotal - apt.bugunku_pesin_fiyat < 0 ∨
            res.modelB.nominalTotal - apt.bugunku_pesin_fiyat < 0 then {}
        else { npvResult := some res, newState := some { st1 with lastNpvResult := some res } }
      | .error _ => {}
    else {}

/-- Installment-count step: a parsed count, or the default 24 on an empty
message, triggers the solver; anything else re-prompts. -/
def stepInstallments (today : ℤ × ℤ) (u : String) (state : ConversationState)
    (apartments : List Apartment) : BotResponse :=
  match parseInstallments u with
  | some n => computeAtInstallments today state apartments n
  | none =>
    if trimStr u == "" then computeAtInstallments today state apartments 24 else {}

/-!
### Negotiation handlers

The `waiting_for_lower_installment` and `showing_alternatives` blocks share
three leading sub-branches (suggested-down-payment acceptance, term
extension, down-payment raising); each returns `none` where the source
block falls through to the next sub-branch.  Non-null assertions such as
`state.downYear!` on fields the flow guarantees to be present are modelled
with `Option.getD` defaults (the source would propagate `NaN`/`undefined`
on those unreachable paths, which `ℚ` cannot represent; no theorem depends
on them).
-/

/-- Acceptance of a previously suggested down payment ("evet"/"kabul"/
"tamam"/"e"). -/
def lowerAccept? (today : ℤ × ℤ) (lm : String) (state : ConversationState)
    (apartments : List Apartment) : Option BotResponse :=
  if optTruthyQ state.suggestedDownAmount &&
      (containsStr lm "evet" || containsStr lm "kabul" ||
       containsStr lm "tamam" || lm == "e") then
    match findApt apartments state.apartmentId, optTruthyQ state.desiredInstallment with
    | some apt, true =>
      let inp : NPVInputs :=
        { targetPv := some apt.bugunku_pesin_fiyat, targetNominal := none,
          monthlyRate := negotiationRate state,
          downAmount := state.suggestedDownAmount.getD 0,
          downYear := state.downYear.getD 0, downMonth := state.downMonth.getD 0,
          nInstallments := jsOrN state.nInstallments 24,
          startYear := jsOrZ state.startYear today.1,
          startMonth := jsOrZ state.startMonth today.2 }
      match calculateNPV inp with
      | .ok res =>
        some { npvResult := some res,
               newState := some { state with downAmount := state.suggestedDownAmount,
                                             step := some .completed,
                                             lastNpvResult := some res,
                                             suggestedDownAmount := none } }
      | .error _ => some {}
    | _, _ => none
  else none

/-- "N ay taksitle olabilir mi?" — recompute with a longer term; adopt it
when the resulting installment falls within ±5000 of the desired one. -/
def lowerExtend? (today : ℤ × ℤ) (u lm : String) (state : ConversationState)
    (apartments : List Apartment) : Option BotResponse :=
  match matchNumAy u.toList with
  | none => none
  | some requested =>
    if containsStr lm "taksitle" || containsStr lm "taksit" ||
        containsStr lm "olabilir" || containsStr lm "olur" then
      if jsOrN state.nInstallments 24 < requested then
        match findApt apartments state.apartmentId, optTruthyQ state.desiredInstallment with
        | some apt, true =>
          let inp : NPVInputs :=
            { targetPv := some apt.bugunku_pesin_fiyat, targetNominal := none,
              monthlyRate := negotiationRate state,
              downAmount := state.downAmount.getD 0,
              downYear := state.downYear.getD 0, downMonth := state.downMonth.getD 0,
              nInstallments := requested,
              startYear := jsOrZ state.startYear today.1,
              startMonth := jsOrZ state.startMonth today.2 }
          match calculateNPV inp with
          | .ok res =>
            if state.desiredInstallment.getD 0 - 5000 ≤ res.modelA.monthlyInstallment ∧
                res.modelA.monthlyInstallment ≤ state.desiredInstallment.getD 0 + 5000 then
              some { npvResult := some res,
                     newState := some { state with nInstallments := some requested,
                                                   step := some .completed,
                                                   lastNpvResult := some res } }
            else some {}
          | .error _ => some {}
        | _, _ => none
      else none
    else none

/-- "Peşinatı ne kadar yükseltirsem olur?" — search the down payment in
50000 increments up to half the property price for the first value whose
Model A installment is within ±5000 of the desired one.  The source's
`while` loop visits exactly the amounts `current + 50000·k` for
`k = 1..⌊(maxDown − current)/50000⌋`, so it is modelled as a search over
that list. -/
def lowerRaise? (today : ℤ × ℤ) (lm : String) (state : ConversationState)
    (apartments : List Apartment) : Option BotResponse :=
  if containsStr lm "peşinat" &&
      (containsStr lm "yükselt" || containsStr lm "artır" || containsStr lm "ne kadar") then
    match findApt apartments state.apartmentId, optTruthyQ state.desiredInstallment with
    | some apt, true =>
      let currentDownAmount := jsOrQ state.downAmount 0
      let maxDownAmount := apt.bugunku_pesin_fiyat * (1 / 2)
      let instAt : ℚ → ℚ := fun d =>
        let inp : NPVInputs :=
          { targetPv := some apt.bugunku_pesin_fiyat, targetNominal := none,
            monthlyRate := negotiationRate state, downAmount := d,
            downYear := state.downYear.getD 0, downMonth := state.downMonth.getD 0,
            nInstallments := jsOrN state.nInstallments 24,
            startYear := jsOrZ state.startYear today.1,
            startMonth := jsOrZ state.startMonth today.2 }
        match calculateNPV inp with
        | .ok res => res.modelA.monthlyInstallment
        | .error _ => 0
      let count := (((maxDownAmount - currentDownAmount) / 50000).floor).toNat
      let candidates := (List.range count).map fun k => currentDownAmount + 50000 * ((k : ℚ) + 1)
      match candidates.find? (fun d =>
          decide (state.desiredInstallment.getD 0 - 5000 ≤ instAt d) &&
          decide (instAt d ≤ state.desiredInstallment.getD 0 + 5000)) with
      | some d => some { newState := some { state with suggestedDownAmount := some d } }
      | none => some {}
    | _, _ => none
  else none

/-- The final branch of the lower-installment step: a parsed amount becomes
the desired installment, the solver runs in target-nominal mode for
validation, and the alternative matcher is consulted; on success the state
moves to `showing_alternatives` (with or without stored alternatives). -/
def lowerAmount (today : ℤ × ℤ) (u : String) (state : ConversationState)
    (apartments : List Apartment) : BotResponse :=
  match parseAmount u with
  | none => {}
  | some amount =>
    let st1 := { state with desiredInstallment := some amount,
                            step := some ConversationStep.showing_alternatives }
    match findApt apartments state.apartmentId with
    | none => {}
    | some _ =>
      let rd := negotiationRate state
      let newNominalTotal := jsOrQ state.downAmount 0 + amount * (jsOrN state.nInstallments 24 : ℚ)
      let inp : NPVInputs :=
        { targetPv := none, targetNominal := some newNominalTotal,
          monthlyRate := rd, downAmount := state.downAmount.getD 0,
          downYear := state.downYear.getD 0, downMonth := state.downMonth.getD 0,
          nInstallments := state.nInstallments.getD 0,
          startYear := jsOrZ state.startYear today.1,
          startMonth := jsOrZ state.startMonth today.2 }
      match calculateNPV inp with
      | .error _ => {}
      | .ok res =>
        if res.modelA.monthlyInstallment < 0 ∨ res.modelB.monthlyInstallment < 0 then {}
        else if res.modelA.nominalTotal - res.modelA.presentValue < 0 ∨
            res.modelB.nominalTotal - res.modelB.presentValue < 0 then {}
        else
          let st2 := { st1 with calculatedPv := some res.modelA.presentValue }
          let alts := findAlternativeApartments apartments amount
            (state.downAmount.getD 0) (state.nInstallments.getD 0) (rd * 100)
            (state.downYear.getD 0) (state.downMonth.getD 0)
            (jsOrZ state.startYear today.1) (jsOrZ state.startMonth today.2)
            (state.apartmentId.getD "") 5000
          if alts.isEmpty then { newState := some st2 }
          else { newState := some { st2 with alternativeApartments := some alts } }

def stepLower (today : ℤ × ℤ) (u lm : String)
    (state : ConversationState) (apartments : List Apartment) : BotResponse :=
  match lowerAccept? today lm state apartments with
  | some r => r
  | none =>
    match lowerExtend? today u lm state apartments with
    | some r => r
    | none =>
      match lowerRaise? today lm state apartments with
      | some r => r
      | none => lowerAmount today u state apartments

/-- Alternative selection in `showing_alternatives`: by list position
(anchored number) or by property id; a selection re-solves against the
chosen property with the unchanged down payment and term, subject to the
same sign validations (whose failure returns reply text only, leaving the
state unchanged). -/
def stepShowing (today : ℤ × ℤ) (u lm : String)
    (state : ConversationState) (apartments : List Apartment) : BotResponse :=
  match lowerAccept? today lm state apartments with
  | some r => r
  | none =>
    match lowerExtend? today u lm state apartments with
    | some r => r
    | none =>
      match lowerRaise? today lm state apartments with
      | some r => r
      | none =>
        let byNumber : Option Apartment :=
          match listNumberMatch u, state.alternativeApartments with
          | some k, some alts => if 1 ≤ k ∧ k ≤ alts.length then alts[k - 1]? else none
          | _, _ => none
        let selected : Option Apartment :=
          match byNumber with
          | some a => some a
          | none => (parseApartmentId u).bind fun evId =>
              apartments.find? fun apt => apt.ev_id == evId
        match selected with
        | none => {}
        | some sel =>
          let st1 := { state with apartmentId := some sel.ev_id,
                                  step := some ConversationStep.completed,
                                  alternativeApartments := none }
          let inp : NPVInputs :=
            { targetPv := some sel.bugunku_pesin_fiyat, targetNominal := none,
              monthlyRate := negotiationRate state,
              downAmount := state.downAmount.getD 0,
              downYear := state.downYear.getD 0, downMonth := state.downMonth.getD 0,
              nInstallments := state.nInstallments.getD 0,
              startYear := jsOrZ state.startYear today.1,
              startMonth := jsOrZ state.startMonth today.2 }
          match calculateNPV inp with
          | .error _ => {}
          | .ok res =>
            if res.modelA.monthlyInstallment < 0 ∨ res.modelB.monthlyInstallment < 0 then {}
            else if res.modelA.nominalTotal - res.modelA.presentValue < 0 ∨
                res.modelB.nominalTotal - res.modelB.presentValue < 0 then {}
            else { npvResult := some res,
                   newState := some { st1 with lastNpvResult := some res } }

/-- The `completed`-state fallback: a "lower installment" phrasing opens the
negotiation; everything else is reply text only. -/
def completedFallback (u : String) (state : ConversationState) : BotResponse :=
  if containsStr (lowerStr u) "daha düşük" || containsStr (lowerStr u) "düşük taksit" then
    { newState := some { state with step := some .waiting_for_lower_installment } }
  else {}

/-- The `completed` state: the keyword block (guarded by a stored result)
opens the negotiation; a known property id restarts collection at the rate
step, clearing every financing field (but keeping the session start date
and any pending suggested down payment, which the source spread does not
touch). -/
def stepCompleted (u lm : String) (state : ConversationState)
    (apartments : List Apartment) : BotResponse :=
  if state.lastNpvResult.isSome && lowerInstallmentKeyword lm then
    { newState := some { state with step := some .waiting_for_lower_installment } }
  else
    match parseApartmentId u with
    | some evId =>
      match apartments.find? (fun apt => apt.ev_id == evId) with
      | some _ =>
        { newState := some { state with apartmentId := some evId,
                                        step := some .waiting_for_interest_rate,
                                        downAmount := none, downYear := none,
                                        downMonth := none, nInstallments := none,
                                        monthlyRate := none, isAnnualRateSelected := none,
                                        desiredInstallment := none, calculatedPv := none,
                                        lastNpvResult := none,
                                        alternativeApartments := none } }
      | none => completedFallback u state
    | none => completedFallback u state

/-- The conversation turn function.  The greeting/initial block fires first
(on a missing step or a greeting keyword), then the help block (reply text
only), then the handler of the current step.  The source's trailing
"all-information-collected" block is unreachable — every step handler
returns, and the only fall-through (the installment step) arrives with the
step already set to `completed`, failing that block's guard — so the turn
ends in the catch-all reply, modelled by the default response. -/
def generateBotResponse (a2m : ℚ → ℚ) (today : ℤ × ℤ) (u : String)
    (state : ConversationState) (apartments : List Apartment) : BotResponse :=
  if state.step.isNone || greetingKeyword (lowerMsg u) then
    greetingResponse today state
  else if helpKeyword (lowerMsg u) then {}
  else
    match state.step with
    | some .waiting_for_apartment => stepApartment u state apartments
    | some .waiting_for_interest_rate => stepRate a2m u (lowerMsg u) state
    | some .waiting_for_down_payment => stepDownPayment u state apartments
    | some .waiting_for_down_payment_year => stepYear today u state
    | some .waiting_for_down_payment_month => stepMonth today u state
    | some .waiting_for_installments => stepInstallments today u state apartments
    | some .completed => stepCompleted u (lowerMsg u) state apartments
    | some .waiting_for_lower_installment => stepLower today u (lowerMsg u) state apartments
    | some .showing_alternatives => stepShowing today u (lowerMsg u) state apartments
    | none => {}

/-- One scripted turn: feed the utterance, keep the old context when the
response carries no updated one (the caller's contract). -/
def stepTurn (a2m : ℚ → ℚ) (today : ℤ × ℤ) (apartments : List Apartment)
    (acc : ConversationState × BotResponse) (u : String) :
    ConversationState × BotResponse :=
  let r := generateBotResponse a2m today u acc.1 apartments
  (r.newState.getD acc.1, r)

/-- Run a list of utterances from the fresh session context, returning the
final context and the last turn's response. -/
def runScript (a2m : ℚ → ℚ) (today : ℤ × ℤ) (apartments : List Apartment)
    (script : List String) : ConversationState × BotResponse :=
  script.foldl (stepTurn a2m today apartments) ({}, {})

/-!
### Concrete instances used by witnesses and counterexamples
-/

/-- A concrete annual-to-monthly conversion function; the theorems about the
engine hold for an arbitrary one, and no witness exercises the annual path. -/
def a2mId : ℚ → ℚ := fun x => x

def today0 : ℤ × ℤ := (2025, 10)

def apt0 : Apartment :=
  { ev_id := "GZP-H04-001", teslim_suresi := "6 ay", bugunku_pesin_fiyat := 1000000 }

def catalog0 : List Apartment := [apt0]

def curApt7 : Apartment :=
  { ev_id := "AAA-B1-001", teslim_suresi := "6 ay", bugunku_pesin_fiyat := 100000 }

def altApt7 : Apartment :=
  { ev_id := "BBB-C2-002", teslim_suresi := "12 ay", bugunku_pesin_fiyat := 50000 }

def catalog7 : List Apartment := [curApt7, altApt7]

def ctxRate : ConversationState :=
  { step := some .waiting_for_interest_rate, apartmentId := some "GZP-H04-001",
    startYear := some 2025, startMonth := some 10 }

def ctxRateSel : ConversationState :=
  { ctxRate with isAnnualRateSelected := some false }

def ctxDown : ConversationState :=
  { step := some .waiting_for_down_payment, apartmentId := some "GZP-H04-001",
    monthlyRate := some 2, startYear := some 2025, startMonth := some 10 }

def ctxYear : ConversationState :=
  { ctxDown with step := some .waiting_for_down_payment_year, downAmount := some 500000 }

def ctxMonth : ConversationState :=
  { ctxYear with step := some .waiting_for_down_payment_month, downYear := some 2025 }

def ctxDone : ConversationState :=
  { step := some .completed, apartmentId := some "GZP-H04-001", monthlyRate := some 2,
    downAmount := some 500000, downYear := some 2025, downMonth := some 12,
    nInstallments := some 24, startYear := some 2025, startMonth := some 10 }

/-- The spec's scripted utterance sequence, empty answers standing for
"accept the default". -/
def scriptC5orig : List String :=
  ["hello", "GZP-H04-001", "monthly", "2", "500000", "", "", "24"]

/-- The scripted sequence with an explicit month and an empty
installment-count answer. -/
def scriptC5 : List String :=
  ["hello", "GZP-H04-001", "monthly", "2", "500000", "", "12", ""]

/-- Target-PV inputs whose down-payment offset is 0, outside Model B's
skip window. -/
def inpC1out : NPVInputs :=
  { targetPv := some 100, targetNominal := none, monthlyRate := 0, downAmount := 0,
    downYear := 2025, downMonth := 10, nInstallments := 1,
    startYear := 2025, startMonth := 10 }

/-- Target-PV inputs whose down-payment offset is 1, inside the skip
window. -/
def inpC1in : NPVInputs :=
  { inpC1out with downAmount := 50, downMonth := 11 }

def inpC2zero : NPVInputs :=
  { inpC1out with nInstallments := 0 }

def inpC2none : NPVInputs :=
  { inpC1out with targetPv := none }

def inpC3 : NPVInputs :=
  { targetPv := some 100, targetNominal := none, monthlyRate := 0, downAmount := 50,
    downYear := 2025, downMonth := 11, nInstallments := 1,
    startYear := 2025, startMonth := 10 }

attribute [local semireducible] Rat.mul Rat.inv Rat.add Rat.sub Rat.ofScientific

set_option maxRecDepth 100000

/-!
### Calendar arithmetic lemmas
-/

theorem monthsBetween_addMonths (y m k : ℤ) :
    monthsBetween y m (addMonths y m k).1 (addMonths y m k).2 = k := by
  simp only [monthsBetween, addMonths]
  omega

theorem addMonths_monthsBetween (y m dy dm : ℤ) (h1 : 1 ≤ dm) (h2 : dm ≤ 12) :
    addMonths y m (monthsBetween y m dy dm) = (dy, dm) := by
  simp only [addMonths, monthsBetween, Prod.mk.injEq]
  constructor <;> omega

theorem addMonths_inj (y m : ℤ) {k j : ℤ}
    (h : addMonths y m k = addMonths y m j) : k = j := by
  have h1 := monthsBetween_addMonths y m k
  rw [h, monthsBetween_addMonths] at h1
  exact h1.symm

/-!
### Discount-sum lemmas
-/

theorem sum_map_mul_left_q (l : List ℤ) (a : ℚ) (f : ℤ → ℚ) :
    (l.map fun k => a * f k).sum = a * (l.map f).sum := by
  induction l with
  | nil => simp
  | cons b l ih => simp [ih, mul_add]

theorem conOffsets_nodup (n : ℕ) : (conOffsets n).Nodup := by
  refine List.Nodup.map ?_ (List.nodup_range n)
  intro a b h
  dsimp at h
  omega

theorem mem_conOffsets {n : ℕ} {t : ℤ} : t ∈ conOffsets n ↔ 1 ≤ t ∧ t ≤ (n : ℤ) := by
  simp only [conOffsets, List.mem_map, List.mem_range]
  constructor
  · rintro ⟨i, hi, rfl⟩
    omega
  · rintro ⟨h1, h2⟩
    exact ⟨(t - 1).toNat, by omega, by omega⟩

theorem pvOfSchedule_offsets (inp : NPVInputs) (T : ℚ) (l : List ℤ) :
    pvOfSchedule (l.map fun k =>
      { date := addMonths inp.startYear inp.startMonth k, amount := T,
        etype := EntryType.installment }) inp
      = T * (l.map fun k => 1 / (1 + inp.monthlyRate) ^ k).sum := by
  simp only [pvOfSchedule, List.map_map]
  rw [← sum_map_mul_left_q]
  apply congrArg
  apply List.map_congr_left
  intro k _
  simp only [Function.comp_apply, presentValue, monthsBetween_addMonths]
  rw [div_eq_mul_one_div]

theorem scheduleConcurrent_eq_offsets (inp : NPVInputs) (T : ℚ) :
    scheduleConcurrent inp T = (conOffsets inp.nInstallments).map fun k =>
      { date := addMonths inp.startYear inp.startMonth k, amount := T,
        etype := EntryType.installment } := by
  simp [scheduleConcurrent, conOffsets, List.map_map, Function.comp]

theorem gSD_none_eq (n : ℕ) (r : ℚ) :
    geometricSumDiscount n r 1 none =
      ((conOffsets n).map fun k => 1 / (1 + r) ^ k).sum := by
  simp only [geometricSumDiscount, conOffsets, List.map_map]
  apply congrArg
  apply List.map_congr_left
  intro i _
  simp [Function.comp, add_comm]

theorem gSD_some_eq (n : ℕ) (r : ℚ) (t : ℤ) :
    geometricSumDiscount n r 1 (some t) =
      ((conOffsets n).map fun k => if k = t then 0 else 1 / (1 + r) ^ k).sum := by
  simp only [geometricSumDiscount, conOffsets, List.map_map]
  apply congrArg
  apply List.map_congr_left
  intro i _
  simp only [Function.comp_apply, Option.some.injEq]
  by_cases h : t = 1 + (i : ℤ)
  · rw [if_pos h, if_pos (by omega)]
  · rw [if_neg h, if_neg (by omega), add_comm 1 (i : ℤ)]

theorem sum_map_erase_nodup (l : List ℤ) (t : ℤ) (f : ℤ → ℚ)
    (hnd : l.Nodup) (hmem : t ∈ l) :
    ((l.erase t).map f).sum = (l.map fun k => if k = t then 0 else f k).sum := by
  have hperm : l.Perm (t :: l.erase t) := List.perm_cons_erase hmem
  have h2 : (l.map fun k => if k = t then 0 else f k).sum
      = ((t :: l.erase t).map fun k => if k = t then 0 else f k).sum :=
    (hperm.map _).sum_eq
  rw [h2, List.map_cons, List.sum_cons, if_pos rfl, zero_add]
  apply congrArg
  apply List.map_congr_left
  intro x hx
  have hxne : x ≠ t := ((hnd.mem_erase_iff).mp hx).1
  rw [if_neg hxne]

theorem skipOffsets_eq_erase (n : ℕ) (t : ℤ) (h1 : 1 ≤ t) (h2 : t ≤ (n : ℤ) + 1) :
    skipOffsets n t = (conOffsets (n + 1)).erase t := by
  have hmem : t ∈ conOffsets (n + 1) := mem_conOffsets.mpr ⟨h1, by push_cast; omega⟩
  have hnd := conOffsets_nodup (n + 1)
  have hfe : (conOffsets (n + 1)).erase t
      = (conOffsets (n + 1)).filter (fun k => k ≠ t) := by
    rw [hnd.erase_eq_filter t]
    apply List.filter_congr
    intro x _
    rw [Bool.eq_iff_iff]
    simp [bne]
  have hlen : ((conOffsets (n + 1)).filter (fun k => k ≠ t)).length = n := by
    rw [← hfe, List.length_erase_of_mem hmem]
    simp [conOffsets]
  rw [show skipOffsets n t
      = ((conOffsets (n + 1)).filter (fun k => k ≠ t)).take n from rfl,
    List.take_of_length_le (le_of_eq hlen), ← hfe]

theorem skipOffsets_sum_eq_gSD (n : ℕ) (r : ℚ) (t : ℤ) (h1 : 1 ≤ t)
    (h2 : t ≤ (n : ℤ) + 1) :
    ((skipOffsets n t).map fun k => 1 / (1 + r) ^ k).sum
      = geometricSumDiscount (n + 1) r 1 (some t) := by
  rw [skipOffsets_eq_erase n t h1 h2, gSD_some_eq,
    sum_map_erase_nodup _ _ _ (conOffsets_nodup (n + 1))
      (mem_conOffsets.mpr ⟨h1, by push_cast; omega⟩)]

theorem sum_pos_list (l : List ℤ) (f : ℤ → ℚ) (hpos : ∀ x ∈ l, 0 < f x)
    (hne : l ≠ []) : 0 < (l.map f).sum := by
  induction l with
  | nil => exact absurd rfl hne
  | cons a l ih =>
    rw [List.map_cons, List.sum_cons]
    rcases List.eq_nil_or_concat l with hnil | _
    · subst hnil
      simpa using hpos a (List.mem_cons_self _ _)
    · have hl : l ≠ [] := by
        rintro rfl
        simp at *
      have := ih (fun x hx => hpos x (List.mem_cons_of_mem a hx)) hl
      have := hpos a (List.mem_cons_self _ _)
      linarith

theorem term_pos {r : ℚ} (hr : -1 < r) (k : ℤ) : 0 < 1 / (1 + r) ^ k := by
  have h1r : (0 : ℚ) < 1 + r := by linarith
  exact div_pos one_pos (zpow_pos h1r k)

theorem conOffsets_ne_nil {n : ℕ} (hn : 1 ≤ n) : conOffsets n ≠ [] := by
  have hlen : (conOffsets n).length = n := by simp [conOffsets]
  intro h
  rw [h] at hlen
  simp at hlen
  omega

theorem gSD_none_pos (n : ℕ) (r : ℚ) (hr : -1 < r) (hn : 1 ≤ n) :
    0 < geometricSumDiscount n r 1 none := by
  rw [gSD_none_eq]
  exact sum_pos_list _ _ (fun x _ => term_pos hr x) (conOffsets_ne_nil hn)

theorem skipOffsets_ne_nil {n : ℕ} {t : ℤ} (hn : 1 ≤ n)
    (h1 : 1 ≤ t) (h2 : t ≤ (n : ℤ) + 1) : skipOffsets n t ≠ [] := by
  have hlen : (skipOffsets n t).length = n := by
    rw [skipOffsets_eq_erase n t h1 h2,
      List.length_erase_of_mem (mem_conOffsets.mpr ⟨h1, by push_cast; omega⟩)]
    simp [conOffsets]
  intro h
  rw [h] at hlen
  simp at hlen
  omega

theorem skipOffsets_sum_pos (n : ℕ) (r : ℚ) (t : ℤ) (hr : -1 < r) (hn : 1 ≤ n)
    (h1 : 1 ≤ t) (h2 : t ≤ (n : ℤ) + 1) :
    0 < ((skipOffsets n t).map fun k => 1 / (1 + r) ^ k).sum :=
  sum_pos_list _ _ (fun x _ => term_pos hr x) (skipOffsets_ne_nil hn h1 h2)

theorem sum_lt_sum_list (l : List ℤ) (f g : ℤ → ℚ) (hne : l ≠ [])
    (hlt : ∀ x ∈ l, f x < g x) : (l.map f).sum < (l.map g).sum := by
  induction l with
  | nil => exact absurd rfl hne
  | cons a l ih =>
    simp only [List.map_cons, List.sum_cons]
    rcases eq_or_ne l [] with rfl | hl
    · simpa using hlt a (List.mem_cons_self _ _)
    · have hrest := ih hl fun x hx => hlt x (List.mem_cons_of_mem a hx)
      have := hlt a (List.mem_cons_self _ _)
      linarith

/-!
### Sorting and catalog lemmas
-/

theorem mem_insertSorted {α : Type} (le : α → α → Bool) (a x : α) (l : List α) :
    x ∈ insertSorted le a l ↔ x = a ∨ x ∈ l := by
  induction l with
  | nil => simp [insertSorted]
  | cons b l ih =>
    simp only [insertSorted]
    by_cases h : le a b
    · simp [h]
    · simp only [h, Bool.false_eq_true, if_false, List.mem_cons, ih]
      tauto

theorem mem_sortByJs {α : Type} (le : α → α → Bool) (x : α) (l : List α) :
    x ∈ sortByJs le l ↔ x ∈ l := by
  induction l with
  | nil => simp [sortByJs]
  | cons a l ih => simp [sortByJs, mem_insertSorted, ih]

/-- Empty input at the down-payment-year step is accepted as the default
year and the conversation advances to the month step; shared by the C5
theorem and its witness. -/
theorem stepYear_empty_default (a2m : ℚ → ℚ) (today : ℤ × ℤ) (u : String)
    (state : ConversationState) (apartments : List Apartment)
    (hstep : state.step = some ConversationStep.waiting_for_down_payment_year)
    (h1 : trimStr u = "") (h2 : trimStr (lowerStr u) = "") :
    generateBotResponse a2m today u state apartments =
      { npvResult := none,
        newState := some { state with downYear := some (jsOrZ state.startYear today.1),
                                      step := some ConversationStep.waiting_for_down_payment_month } } := by
  have hlm : lowerMsg u = "" := h2
  have hg : greetingKeyword (lowerMsg u) = false := by rw [hlm]; rfl
  have hh : helpKeyword (lowerMsg u) = false := by rw [hlm]; rfl
  have htrim : trimChars u.toList = [] := by
    have h3 := congrArg String.toList h1
    simpa [trimStr] using h3
  have hpy : parseYear u = none := by
    simp only [parseYear, htrim]
    rfl
  unfold generateBotResponse
  rw [hstep, hg, hh]
  simp only [Option.isNone_some, Bool.or_false, Bool.false_eq_true, if_false]
  unfold stepYear
  rw [hpy]
  rw [show (trimStr u == "") = true by rw [h1]; rfl]
  simp

/-!
### Claim theorems
-/

/-- C1 counterexample: with the down-payment offset 0 (down payment in the
start month, an offset ≤ 0 the claim explicitly includes), `nInstallments =
1 ≥ 1`, `monthlyRate = 0 > -1` and both discount sums nonzero, Model B's
present value is 50 while the requested target present value is 100 — a
relative error of 1/2, far beyond the claimed 1e-6 tolerance.  (The solver
divides by the (n+1)-term sum although the schedule only pays n
installments when the offset lies outside `[1, n+1]`.) -/
theorem c1_counterexample :
    (calculateNPV inpC1out).toOption.map (fun res => res.modelB.presentValue) = some 50 ∧
    inpC1out.targetPv = some 100 ∧
    monthsBetween inpC1out.startYear inpC1out.startMonth inpC1out.downYear inpC1out.downMonth = 0 ∧
    1 ≤ inpC1out.nInstallments ∧ (-1 : ℚ) < inpC1out.monthlyRate ∧
    geometricSumDiscount inpC1out.nInstallments inpC1out.monthlyRate 1 none ≠ 0 ∧
    geometricSumDiscount (inpC1out.nInstallments + 1) inpC1out.monthlyRate 1 none ≠ 0 ∧
    (100 - 50 : ℚ) / 100 > 1 / 1000000 := by
  refine ⟨by decide, rfl, by decide, by decide, by decide, by decide, by decide, by norm_num⟩

/-- C1 (amended): in target-present-value mode with `nInstallments ≥ 1` and
`monthlyRate > -1` (which makes every discount sum strictly positive, so no
denominator is zero), Model A's returned present value reproduces the
target exactly for every integer down-payment offset, and Model B's does so
whenever the offset lies in `[1, nInstallments + 1]`; outside that window
Model B's present value generally differs from the target, as the
counterexample shows.  Exact `ℚ` equality is stronger than the claimed
1e-6 relative tolerance. -/
theorem c1_amended_targetPv_reproduction (inp : NPVInputs) (pv : ℚ)
    (hpv : inp.targetPv = some pv)
    (hn : 1 ≤ inp.nInstallments) (hr : -1 < inp.monthlyRate) :
    ∃ res, calculateNPV inp = Except.ok res ∧
      res.modelA.presentValue = pv ∧
      (1 ≤ monthsBetween inp.startYear inp.startMonth inp.downYear inp.downMonth →
        monthsBetween inp.startYear inp.startMonth inp.downYear inp.downMonth ≤
          (inp.nInstallments : ℤ) + 1 →
        res.modelB.presentValue = pv) := by
  simp only [calculateNPV, hpv]
  refine ⟨_, rfl, ?_, ?_⟩
  · rw [scheduleConcurrent_eq_offsets, pvOfSchedule_offsets, ← gSD_none_eq,
      div_mul_cancel₀ _ (gSD_none_pos inp.nInstallments inp.monthlyRate hr hn).ne']
    ring
  · intro h1 h2
    rw [if_pos ⟨h1, h2⟩]
    simp only [scheduleSkip]
    rw [pvOfSchedule_offsets, skipOffsets_sum_eq_gSD _ _ _ h1 h2]
    have hpos : 0 < geometricSumDiscount (inp.nInstallments + 1) inp.monthlyRate 1
        (some (monthsBetween inp.startYear inp.startMonth inp.downYear inp.downMonth)) := by
      rw [← skipOffsets_sum_eq_gSD _ _ _ h1 h2]
      exact skipOffsets_sum_pos _ _ _ hr hn h1 h2
    rw [div_mul_cancel₀ _ hpos.ne']
    ring

/-- C1 witness: at concrete in-window inputs (offset 1, one installment,
zero rate, target 100) both models reproduce the target exactly. -/
theorem c1_amended_witness :
    ∃ res, calculateNPV inpC1in = Except.ok res ∧
      res.modelA.presentValue = 100 ∧ res.modelB.presentValue = 100 := by
  obtain ⟨res, hok, hA, hB⟩ :=
    c1_amended_targetPv_reproduction inpC1in 100 rfl (by decide) (by decide)
  exact ⟨res, hok, hA, hB (by decide) (by decide)⟩

/-- C2 counterexample: with `nInstallments = 0` (and a target present value
supplied) the solver signals nothing — it returns a result even though the
`n`-term discount sum is 0 and the division by it is a division by zero
(IEEE `Infinity` in the source); no degenerate-input condition exists in
the code. -/
theorem c2_counterexample :
    (calculateNPV inpC2zero).isOk = true ∧
    inpC2zero.nInstallments = 0 ∧
    geometricSumDiscount inpC2zero.nInstallments inpC2zero.monthlyRate 1 none = 0 := by
  exact ⟨rfl, rfl, rfl⟩

/-- C2 (amended): `calculateNPV` signals its invalid-input error exactly
when neither `targetPv` nor `targetNominal` is supplied; it performs no
degenerate-input check, so `nInstallments = 0` or a zero discount sum
still produces a result (computed through division by zero), as the
counterexample shows. -/
theorem c2_error_iff_no_target (inp : NPVInputs) :
    calculateNPV inp = Except.error CalcError.invalidInput ↔
      inp.targetPv = none ∧ inp.targetNominal = none := by
  cases hpv : inp.targetPv with
  | some pv => simp [calculateNPV, hpv]
  | none =>
    cases hnom : inp.targetNominal with
    | some tn => simp [calculateNPV, hpv, hnom]
    | none => simp [calculateNPV, hpv, hnom]

/-- C2 witness: with both targets absent the solver signals the
invalid-input error. -/
theorem c2_witness : calculateNPV inpC2none = Except.error CalcError.invalidInput :=
  (c2_error_iff_no_target inpC2none).mpr ⟨rfl, rfl⟩

/-- C3: for every input with `nInstallments ≥ 1` and a valid down-payment
month (1..12 per the input contract), Model B's schedule contains no entry
whose calendar month equals the down-payment's calendar month, for every
integer down-payment offset (any `downYear`, so negative, zero, in-window
and beyond-window offsets are all covered). -/
theorem c3_modelB_skips_down_month (inp : NPVInputs) (T : ℚ)
    (_hn : 1 ≤ inp.nInstallments)
    (h1 : 1 ≤ inp.downMonth) (h2 : inp.downMonth ≤ 12) :
    ∀ e ∈ scheduleSkip inp T, e.date ≠ (inp.downYear, inp.downMonth) := by
  intro e he heq
  simp only [scheduleSkip, List.mem_map] at he
  obtain ⟨k, hk, rfl⟩ := he
  have heq2 : addMonths inp.startYear inp.startMonth k = (inp.downYear, inp.downMonth) := heq
  have hd := addMonths_monthsBetween inp.startYear inp.startMonth inp.downYear inp.downMonth h1 h2
  have hkt : k = monthsBetween inp.startYear inp.startMonth inp.downYear inp.downMonth :=
    addMonths_inj _ _ (heq2.trans hd.symm)
  simp only [skipOffsets] at hk
  have hk2 := List.mem_of_mem_take hk
  rw [List.mem_filter] at hk2
  have hne : k ≠ monthsBetween inp.startYear inp.startMonth inp.downYear inp.downMonth := by
    simpa using hk2.2
  exact hne hkt

/-- C3 witness: the single Model B entry of the concrete one-installment
schedule (paid at offset 2, i.e. 2025-12) is not dated in the down-payment
month 2025-11. -/
theorem c3_witness :
    ({ date := (2025, 12), amount := 5, etype := EntryType.installment } : ScheduleEntry).date
      ≠ ((2025 : ℤ), (11 : ℤ)) := by
  have h := c3_modelB_skips_down_month inpC3 5 (by decide) (by decide) (by decide)
  exact h _ (by decide)

/-- C4 counterexample: at the rate step the utterance "2" — which the
engine itself interprets as 2 percent per month (its reply renders it as
`%2` and every computation divides a stored value above 1 by 100) — is
stored as `monthlyRate = 2`, not as the decimal fraction `0.02`; so the
session context does not always hold the decimal-fraction form. -/
theorem c4_counterexample :
    ((generateBotResponse a2mId today0 "2" ctxRate catalog0).newState.bind
      (fun s => s.monthlyRate)) = some 2 ∧ (2 : ℚ) ≠ 2 / 100 := by
  exact ⟨by decide, by norm_num⟩

/-- C4 (amended): the engine stores a recorded monthly rate in the user's
numeric form, not always as a decimal fraction: a bare number `q` (with
`0 < q < 1000`, monthly selected) is stored as `monthlyRate = q` itself —
the percent form whenever `q > 1`, in which case the stored value differs
from the decimal fraction `q / 100`; downstream computations derive the
decimal fraction at each use site via `normalizeRate` (`v > 1 ? v/100 :
v`). -/
theorem c4_stores_parsed_form (a2m : ℚ → ℚ) (today : ℤ × ℤ) (u : String)
    (state : ConversationState) (apartments : List Apartment) (q : ℚ)
    (hstep : state.step = some ConversationStep.waiting_for_interest_rate)
    (hg : greetingKeyword (lowerMsg u) = false)
    (hh : helpKeyword (lowerMsg u) = false)
    (hsel : state.isAnnualRateSelected = some false)
    (hid : parseApartmentId u = none)
    (hq : firstNumQ u = some q)
    (hguard : bareRateGuard u = true) (h0 : 0 < q) (h1000 : q < 1000) :
    (generateBotResponse a2m today u state apartments).newState =
      some { state with monthlyRate := some q,
                        step := some ConversationStep.waiting_for_down_payment } ∧
    (1 < q → q ≠ q / 100) := by
  constructor
  · unfold generateBotResponse
    rw [hstep, hg, hh]
    simp only [Option.isNone_some, Bool.or_false, Bool.false_eq_true, if_false]
    unfold stepRate
    rw [hid, hsel]
    simp only [Option.isSome_none, Bool.false_eq_true, if_false, hq]
    rw [if_pos ⟨hguard, h0, h1000⟩]
  · intro hq1
    have hlt : q / 100 < q := div_lt_self (by linarith) (by norm_num)
    exact (ne_of_gt hlt)

/-- C4 witness: the bare utterance "2" at the rate step (monthly already
selected) stores `monthlyRate = 2` and advances; `2` is not the decimal
fraction `2 / 100`. -/
theorem c4_witness :
    (generateBotResponse a2mId today0 "2" ctxRateSel catalog0).newState =
      some { ctxRateSel with monthlyRate := some 2,
                             step := some ConversationStep.waiting_for_down_payment } ∧
    ((1 : ℚ) < 2 → (2 : ℚ) ≠ 2 / 100) :=
  c4_stores_parsed_form a2mId today0 "2" ctxRateSel catalog0 2 rfl (by decide)
    (by decide) rfl (by decide) (by decide) (by decide) (by norm_num) (by norm_num)

/-- C5 counterexample: the spec's scripted sequence `["hello",
"GZP-H04-001", "monthly", "2", "500000", "", "", "24"]` does not reach the
completed state: the down-payment-month prompt has no empty-input default,
so the empty seventh utterance is re-prompted (state unchanged, as the
final conjunct shows at that step directly) and the trailing "24" is not a
valid month; the run ends still waiting for the month, with no produced
NPVResult. -/
theorem c5_counterexample :
    (runScript a2mId today0 catalog0 scriptC5orig).1.step =
      some ConversationStep.waiting_for_down_payment_month ∧
    (runScript a2mId today0 catalog0 scriptC5orig).1.step ≠
      some ConversationStep.completed ∧
    (runScript a2mId today0 catalog0 scriptC5orig).2.npvResult = none ∧
    generateBotResponse a2mId today0 "" ctxMonth catalog0 = {} := by
  exact ⟨by decide, by decide, by decide, by decide⟩

/-- C5 (amended): an empty (whitespace-only) utterance is accepted as the
default at the down-payment-year prompt (session start year, else current
year) and at the installment-count prompt (24, exercised concretely by the
script's final empty turn), but not at the down-payment-month prompt,
which re-prompts; consequently the scripted sequence reaches `completed`
with a produced NPVResult once the empty month answer is replaced by an
explicit month: `["hello", "GZP-H04-001", "monthly", "2", "500000", "",
"12", ""]` ends completed with `nInstallments = 24` and a result. -/
theorem c5_empty_default_behavior :
    (∀ (a2m : ℚ → ℚ) (today : ℤ × ℤ) (u : String) (state : ConversationState)
      (apartments : List Apartment),
      state.step = some ConversationStep.waiting_for_down_payment_year →
      trimStr u = "" → trimStr (lowerStr u) = "" →
      generateBotResponse a2m today u state apartments =
        { npvResult := none,
          newState := some { state with
            downYear := some (jsOrZ state.startYear today.1),
            step := some ConversationStep.waiting_for_down_payment_month } }) ∧
    (runScript a2mId today0 catalog0 scriptC5).1.step =
      some ConversationStep.completed ∧
    (runScript a2mId today0 catalog0 scriptC5).1.nInstallments = some 24 ∧
    (runScript a2mId today0 catalog0 scriptC5).2.npvResult.isSome = true := by
  refine ⟨?_, by decide, by decide, by decide⟩
  intro a2m today u state apartments hstep h1 h2
  exact stepYear_empty_default a2m today u state apartments hstep h1 h2

/-- C5 witness: the year-default conjunct applied at the concrete
year-prompt context with the empty utterance, together with the concrete
script facts. -/
theorem c5_witness :
    generateBotResponse a2mId today0 "" ctxYear catalog0 =
      { npvResult := none,
        newState := some { ctxYear with
                           downYear := some 2025,
                           step := some ConversationStep.waiting_for_down_payment_month } } ∧
    (runScript a2mId today0 catalog0 scriptC5).1.step =
      some ConversationStep.completed := by
  have h := c5_empty_default_behavior
  refine ⟨?_, h.2.1⟩
  have h1 := h.1 a2mId today0 "" ctxYear catalog0 rfl rfl rfl
  simpa using h1

/-- C6 counterexample: a mid-session greeting ("merhaba") returns a context
that still carries the selected property id, the stored rate and the
down-payment amount — the financing parameters are not cleared. -/
theorem c6_counterexample :
    ((generateBotResponse a2mId today0 "merhaba" ctxDone catalog0).newState.bind
      (fun s => s.apartmentId)) = some "GZP-H04-001" ∧
    ((generateBotResponse a2mId today0 "merhaba" ctxDone catalog0).newState.bind
      (fun s => s.monthlyRate)) = some 2 ∧
    ((generateBotResponse a2mId today0 "merhaba" ctxDone catalog0).newState.bind
      (fun s => s.downAmount)) = some 500000 := by
  exact ⟨by decide, by decide, by decide⟩

/-- C6 (amended): on a greeting/restart utterance, in every state, the
engine returns to the initial property-collection step and resets the
session start date to the current date, but retains every previously
collected financing parameter (property id, rate, down payment and date,
installment count, negotiation fields, last result) — the structure-update
conclusion fixes step, startYear and startMonth and leaves all other
fields of the input context unchanged. -/
theorem c6_greeting_keeps_params (a2m : ℚ → ℚ) (today : ℤ × ℤ) (u : String)
    (state : ConversationState) (apartments : List Apartment)
    (hg : greetingKeyword (lowerMsg u) = true) :
    generateBotResponse a2m today u state apartments =
      { npvResult := none,
        newState := some { state with step := some ConversationStep.waiting_for_apartment,
                                      startYear := some today.1,
                                      startMonth := some today.2 } } := by
  unfold generateBotResponse
  rw [hg]
  simp [greetingResponse]

/-- C6 witness: the amended statement at the concrete completed-state
context and the utterance "merhaba". -/
theorem c6_witness :
    generateBotResponse a2mId today0 "merhaba" ctxDone catalog0 =
      { npvResult := none,
        newState := some { ctxDone with step := some ConversationStep.waiting_for_apartment,
                                        startYear := some 2025,
                                        startMonth := some 10 } } :=
  c6_greeting_keeps_params a2mId today0 "merhaba" ctxDone catalog0 (by decide)

/-- C7: for every catalog, desired installment, financing parameters and
tolerance (the call sites pass the default 5000), the alternative matcher
returns at most 5 properties, never the currently selected one, and every
returned property's recomputed Model A installment — target-present-value
mode with that property's price and the unchanged down payment, term and
rate — is strictly positive and lies within the tolerance of the desired
amount. -/
theorem c7_alternative_matcher_sound (apartments : List Apartment)
    (desired down : ℚ) (n : ℕ) (rate : ℚ) (dy dm sy sm : ℤ)
    (currentId : String) (tol : ℚ) :
    (findAlternativeApartments apartments desired down n rate dy dm sy sm currentId tol).length ≤ 5 ∧
    ∀ apt ∈ findAlternativeApartments apartments desired down n rate dy dm sy sm currentId tol,
      apt.ev_id ≠ currentId ∧
      0 < recomputedInstallment down n rate dy dm sy sm apt ∧
      desired - tol ≤ recomputedInstallment down n rate dy dm sy sm apt ∧
      recomputedInstallment down n rate dy dm sy sm apt ≤ desired + tol := by
  unfold findAlternativeApartments
  cases hfind : apartments.find? (fun apt => apt.ev_id == currentId) with
  | none => simp
  | some cur =>
    simp only []
    constructor
    · rw [List.length_map, List.length_take]
      exact min_le_left 5 _
    · intro apt hmem
      rw [List.mem_map] at hmem
      obtain ⟨item, hitem, rfl⟩ := hmem
      have h1 : item ∈ sortByJs _ _ := List.mem_of_mem_take hitem
      rw [mem_sortByJs, List.mem_filter] at h1
      obtain ⟨h2, h3⟩ := h1
      rw [List.mem_filterMap] at h2
      obtain ⟨apt0, hapt0, hf⟩ := h2
      rw [List.mem_filter] at hapt0
      obtain ⟨_, hne0⟩ := hapt0
      simp only [Bool.and_eq_true, decide_eq_true_eq] at h3
      split at hf
      case _ res heq =>
        simp only [Option.some.injEq] at hf
        subst hf
        refine ⟨by simpa using hne0, ?_, ?_, ?_⟩
        · rw [recomputedInstallment, heq]
          exact h3.2
        · rw [recomputedInstallment, heq]
          exact h3.1.1
        · rw [recomputedInstallment, heq]
          exact h3.1.2
      case _ => simp at hf

/-- C7 witness: in a concrete two-property catalog the matcher returns the
other property, whose recomputed installment (50000) is positive and within
the default tolerance of the desired 50000. -/
theorem c7_witness :
    altApt7.ev_id ≠ "AAA-B1-001" ∧
    0 < recomputedInstallment 0 1 0 2025 10 2025 10 altApt7 ∧
    (50000 : ℚ) - 5000 ≤ recomputedInstallment 0 1 0 2025 10 2025 10 altApt7 ∧
    recomputedInstallment 0 1 0 2025 10 2025 10 altApt7 ≤ 50000 + 5000 :=
  (c7_alternative_matcher_sound catalog7 50000 0 1 0 2025 10 2025 10
    "AAA-B1-001" 5000).2 altApt7 (by decide)

/-- C8: at the down-payment-amount step (with a stored nonzero rate, a
selected property resolving in the catalog, and an utterance that is not a
greeting/restart), any utterance parsing to an amount exceeding the
property's price is rejected: the turn returns neither an updated context
nor a result, so the state does not advance. -/
theorem c8_excess_down_payment_rejected (a2m : ℚ → ℚ) (today : ℤ × ℤ)
    (u : String) (state : ConversationState) (apartments : List Apartment)
    (r a : ℚ) (apt : Apartment)
    (hstep : state.step = some ConversationStep.waiting_for_down_payment)
    (hg : greetingKeyword (lowerMsg u) = false)
    (hr : state.monthlyRate = some r) (hr0 : r ≠ 0)
    (hapt : findApt apartments state.apartmentId = some apt)
    (ha : parseAmount u = some a) (hgt : apt.bugunku_pesin_fiyat < a) :
    generateBotResponse a2m today u state apartments = {} := by
  unfold generateBotResponse
  rw [hstep, hg]
  simp only [Option.isNone_some, Bool.or_false, Bool.false_eq_true, if_false]
  by_cases hh : helpKeyword (lowerMsg u)
  · simp [hh]
  · simp only [hh, Bool.false_eq_true, if_false]
    unfold stepDownPayment
    have htr : optTruthyQ state.monthlyRate = true := by
      rw [hr]
      simpa [optTruthyQ] using hr0
    rw [htr]
    simp only [Bool.not_true, Bool.false_eq_true, if_false]
    cases hid : parseApartmentId u with
    | some evId => simp [hid]
    | none =>
      simp only [hid, Option.isSome_none, Bool.false_eq_true, if_false, ha]
      by_cases hlt : a < 1000
      · simp [hlt]
      · simp only [hlt, if_false, hapt]
        rw [if_pos hgt]

/-- C8 witness: the utterance "2000000" at the concrete down-payment-amount
context with the selected property priced 1000000 is rejected with no state
change. -/
theorem c8_witness :
    generateBotResponse a2mId today0 "2000000" ctxDown catalog0 = {} :=
  c8_excess_down_payment_rejected a2mId today0 "2000000" ctxDown catalog0
    2 2000000 apt0 rfl (by decide) rfl (by norm_num) (by decide) (by decide) (by decide)

/-- C9: for every `n ≥ 1`, the no-skip discount sum
`geometricSumDiscount n r 1` is strictly decreasing in `r` on `r > -1`
(for `-1 < r1 < r2` the sum at `r2` is strictly smaller), and it equals
`n` at `r = 0`. -/
theorem c9_geometric_sum_strict_antitone (n : ℕ) (hn : 1 ≤ n) :
    (∀ r1 r2 : ℚ, -1 < r1 → r1 < r2 →
      geometricSumDiscount n r2 1 none < geometricSumDiscount n r1 1 none) ∧
    geometricSumDiscount n 0 1 none = (n : ℚ) := by
  constructor
  · intro r1 r2 hr1 hlt
    rw [gSD_none_eq, gSD_none_eq]
    apply sum_lt_sum_list _ _ _ (conOffsets_ne_nil hn)
    intro k hk
    have hk1 : 1 ≤ k := (mem_conOffsets.mp hk).1
    have h01 : (0 : ℚ) < 1 + r1 := by linarith
    have h12 : 1 + r1 < 1 + r2 := by linarith
    have hkn : k = ((k.toNat : ℕ) : ℤ) := by omega
    rw [hkn, zpow_natCast, zpow_natCast]
    have hpow : (1 + r1) ^ k.toNat < (1 + r2) ^ k.toNat :=
      pow_lt_pow_left₀ h12 h01.le (by omega)
    exact one_div_lt_one_div_of_lt (pow_pos h01 _) hpow
  · rw [gSD_none_eq]
    have hconst : ((conOffsets n).map fun k => 1 / (1 + (0 : ℚ)) ^ k)
        = (conOffsets n).map fun _ => (1 : ℚ) := by
      apply List.map_congr_left
      intro k _
      simp
    rw [hconst, List.map_const', List.sum_replicate, nsmul_eq_mul, mul_one]
    simp [conOffsets]

/-- C9 witness: at `n = 2` the sum at rate 1 is strictly below the sum at
rate 0, which equals 2. -/
theorem c9_witness :
    geometricSumDiscount 2 1 1 none < geometricSumDiscount 2 0 1 none ∧
    geometricSumDiscount 2 0 1 none = (2 : ℚ) := by
  have h := c9_geometric_sum_strict_antitone 2 (by norm_num)
  exact ⟨h.1 0 1 (by norm_num) (by norm_num), h.2⟩

/-- C10: at the down-payment-amount step (with a stored nonzero rate and a
non-greeting utterance), any utterance parsing to a positive amount
strictly below 1000 is rejected: no updated context and no result are
returned, so the state does not advance — the undocumented minimum
down-payment threshold. -/
theorem c10_minimum_down_payment_threshold (a2m : ℚ → ℚ) (today : ℤ × ℤ)
    (u : String) (state : ConversationState) (apartments : List Apartment)
    (r a : ℚ)
    (hstep : state.step = some ConversationStep.waiting_for_down_payment)
    (hg : greetingKeyword (lowerMsg u) = false)
    (hr : state.monthlyRate = some r) (hr0 : r ≠ 0)
    (ha : parseAmount u = some a) (_h0 : 0 < a) (hlt : a < 1000) :
    generateBotResponse a2m today u state apartments = {} := by
  unfold generateBotResponse
  rw [hstep, hg]
  simp only [Option.isNone_some, Bool.or_false, Bool.false_eq_true, if_false]
  by_cases hh : helpKeyword (lowerMsg u)
  · simp [hh]
  · simp only [hh, Bool.false_eq_true, if_false]
    unfold stepDownPayment
    have htr : optTruthyQ state.monthlyRate = true := by
      rw [hr]
      simpa [optTruthyQ] using hr0
    rw [htr]
    simp only [Bool.not_true, Bool.false_eq_true, if_false]
    cases hid : parseApartmentId u with
    | some evId => simp [hid]
    | none =>
      simp only [hid, Option.isSome_none, Bool.false_eq_true, if_false, ha]
      simp [hlt]

/-- C10 witness: the utterance "500" at the concrete down-payment-amount
context is rejected with no state change. -/
theorem c10_witness :
    generateBotResponse a2mId today0 "500" ctxDown catalog0 = {} :=
  c10_minimum_down_payment_threshold a2mId today0 "500" ctxDown catalog0
    2 500 rfl (by decide) rfl (by norm_num) (by decide) (by norm_num) (by norm_num)
